import Mathlib

/-!
# CDC event transformer (`cmd/cdc/advanced/main.go`)

A shallow embedding of the Lambda handler that turns DynamoDB stream records into
event envelopes, followed by the properties proved about it.

The handler is one Go file.  What it imports is embedded as follows.

* `events.DynamoDBAttributeValue` (github.com/aws/aws-lambda-go): a value is kept as its
  data type together with its payload; indexing a Go map at a missing key (or indexing a
  nil map) yields the zero value, whose data type is `DataTypeBinary` and whose payload
  is nil.  `String()` returns the payload of a string attribute and, for every other
  data type, the `%v` rendering of the value (`{<payload> <data type number>}`).
* `strcase.KebabCase` (github.com/stoewer/go-strcase): embedded rune by rune.
* `fmt.Sprint` / `fmt.Sprintf`: only applied to strings by the handler.
* `time.Parse` (Go standard library): taken as a parameter of every definition that
  reaches it.
* `sns.Client.PublishBatch` (aws-sdk-go-v2): the handler holds it as a function from the
  request to the outcome of the call; every call is recorded.
-/

namespace Cdc

/-! ## The library types the handler reads -/

/-- The data types of a DynamoDB attribute value, in the order of the library's
`iota` block, so that `DataTypeBinary` is the zero value of the type. -/
inductive DynamoDBDataType
  | DataTypeBinary
  | DataTypeBoolean
  | DataTypeBinarySet
  | DataTypeList
  | DataTypeMap
  | DataTypeNumber
  | DataTypeNumberSet
  | DataTypeNull
  | DataTypeString
  | DataTypeStringSet
  deriving DecidableEq, Repr

/-- The integer behind a data type (its position in the `iota` block). -/
def DynamoDBDataType.code : DynamoDBDataType → Nat
  | .DataTypeBinary => 0
  | .DataTypeBoolean => 1
  | .DataTypeBinarySet => 2
  | .DataTypeList => 3
  | .DataTypeMap => 4
  | .DataTypeNumber => 5
  | .DataTypeNumberSet => 6
  | .DataTypeNull => 7
  | .DataTypeString => 8
  | .DataTypeStringSet => 9

/-- A DynamoDB attribute value: its data type and its payload.  For a string attribute
`value` is the string itself; for any other data type `value` is what `fmt` prints for
the payload under `%v` (`<nil>` for no payload), which is all `String()` uses of it. -/
structure DynamoDBAttributeValue where
  dataType : DynamoDBDataType
  value : String
  deriving DecidableEq, Repr

/-- The Go zero value of `DynamoDBAttributeValue`: data type 0, nil payload. -/
def DynamoDBAttributeValue.zero : DynamoDBAttributeValue :=
  { dataType := .DataTypeBinary, value := "<nil>" }

/-- A string attribute, `{"S": s}` on the wire. -/
def NewStringAttribute (s : String) : DynamoDBAttributeValue :=
  { dataType := .DataTypeString, value := s }

/-- The library method `DynamoDBAttributeValue.String()`: the payload of a string
attribute; any other value is printed with `%v` as a two-field struct. -/
def DynamoDBAttributeValue.String (av : DynamoDBAttributeValue) : String :=
  if av.dataType = .DataTypeString then av.value
  else "\x7b" ++ av.value ++ " " ++ toString av.dataType.code ++ "\x7d"

/-- An item image, `map[string]DynamoDBAttributeValue`, as an association list; the
first binding of a key is the one the map holds. -/
abbrev Image := List (String × DynamoDBAttributeValue)

/-- Go map indexing `m[key]` on an image that may be the nil map: a missing key and the
nil map both give the zero value. -/
def index (m : Option Image) (key : String) : DynamoDBAttributeValue :=
  match m with
  | none => DynamoDBAttributeValue.zero
  | some img => (img.lookup key).getD DynamoDBAttributeValue.zero

/-- A point in time (`time.Time`): seconds since the Unix epoch, nanoseconds within the
second, and the zone offset in seconds east of UTC. -/
structure Time where
  unix : Int
  nsec : Nat
  offset : Int
  deriving DecidableEq, Repr

/-- The fields of `events.DynamoDBStreamRecord` the handler reads. -/
structure DynamoDBStreamRecord where
  ApproximateCreationDateTime : Time
  NewImage : Option Image
  OldImage : Option Image
  deriving DecidableEq, Repr

/-- A record of the request, `events.DynamoDBEventRecord`: the two fields the handler
reads, `EventID` and `Change`, and the event name the stream gives the change. -/
structure DynamoDBEventRecord where
  EventID : String
  EventName : String
  Change : DynamoDBStreamRecord
  deriving DecidableEq, Repr

/-- The request: `events.DynamoDBEvent`. -/
structure DynamoDBEvent where
  Records : List DynamoDBEventRecord
  deriving DecidableEq, Repr

/-- The function `time.Parse(layout, value)`: the parsed time, or nothing when the call
returns an error. -/
abbrev TimeParser := String → String → Option Time

/-! ## `strcase.KebabCase` -/

/-- Library helper `isLower`: an ASCII lower-case letter. -/
def isLower (ch : Char) : Bool := 'a' ≤ ch && ch ≤ 'z'

/-- Library helper `isUpper`: an ASCII upper-case letter. -/
def isUpper (ch : Char) : Bool := 'A' ≤ ch && ch ≤ 'Z'

/-- Library helper `toLower`: `ch + 32` on an ASCII upper-case letter, else `ch`. -/
def toLower (ch : Char) : Char :=
  if 'A' ≤ ch && ch ≤ 'Z' then Char.ofNat (ch.toNat + 32) else ch

/-- Library helper `toUpper`: `ch - 32` on an ASCII lower-case letter, else `ch`. -/
def toUpper (ch : Char) : Char :=
  if 'a' ≤ ch && ch ≤ 'z' then Char.ofNat (ch.toNat - 32) else ch

/-- Library helper `isSpace`. -/
def isSpace (ch : Char) : Bool := ch = ' ' || ch = '\t' || ch = '\n' || ch = '\r'

/-- Library helper `isDelimiter`. -/
def isDelimiter (ch : Char) : Bool := ch = '-' || ch = '_' || isSpace ch

/-- The white space `strings.TrimSpace` removes (`unicode.IsSpace`). -/
def unicodeIsSpace (ch : Char) : Bool :=
  let n := ch.toNat
  (9 ≤ n && n ≤ 13) || n = 32 || n = 0x85 || n = 0xA0 || n = 0x1680 ||
    (0x2000 ≤ n && n ≤ 0x200A) || n = 0x2028 || n = 0x2029 || n = 0x202F ||
    n = 0x205F || n = 0x3000

/-- The function `strings.TrimSpace` on the runes of a string. -/
def TrimSpace (s : List Char) : List Char :=
  ((s.dropWhile unicodeIsSpace).reverse.dropWhile unicodeIsSpace).reverse

/-- One iteration of the loop `for _, next := range s` of `delimiterCase`: the state is
the buffer with the two runes read before `next`. -/
def delimiterStep (delimiter : Char) (adjustCase : Char → Char)
    (st : List Char × Char × Char) (next : Char) : List Char × Char × Char :=
  let buffer := st.1
  let prev := st.2.1
  let curr := st.2.2
  let buffer :=
    if isDelimiter curr then
      if !isDelimiter prev then buffer ++ [delimiter] else buffer
    else if isUpper curr then
      let buffer :=
        if isLower prev || (isUpper prev && isLower next) then buffer ++ [delimiter]
        else buffer
      buffer ++ [adjustCase curr]
    else if curr ≠ Char.ofNat 0 then buffer ++ [adjustCase curr]
    else buffer
  (buffer, curr, next)

/-- The library function `delimiterCase` on runes. -/
def delimiterCase (s : List Char) (delimiter : Char) (upperCase : Bool) : List Char :=
  let s := TrimSpace s
  let adjustCase := if upperCase then toUpper else toLower
  let st := s.foldl (delimiterStep delimiter adjustCase) ([], Char.ofNat 0, Char.ofNat 0)
  let buffer := st.1
  let prev := st.2.1
  let curr := st.2.2
  if s.length > 0 then
    let buffer :=
      if isUpper curr && isLower prev && prev ≠ Char.ofNat 0 then buffer ++ [delimiter]
      else buffer
    buffer ++ [adjustCase curr]
  else buffer

/-- The function `strcase.KebabCase`. -/
def KebabCase (s : String) : String :=
  String.mk (delimiterCase s.data '-' false)

/-- The function `fmt.Sprint` on string operands: the operands are written one after the
other; a space goes between two operands only when neither is a string, so none is
written here. -/
def Sprint (operands : List String) : String :=
  operands.foldl (fun acc a => acc ++ a) ""

/-! ## The handler -/

/-- The layout `getTime` parses against. -/
def TimeFormat : String := "2006-01-02T15:04:05-0700"

/-- One entry of a batch-publish request. -/
structure PublishBatchRequestEntry where
  Id : String
  Message : String
  deriving DecidableEq, Repr

/-- The request of `PublishBatch`. -/
structure PublishBatchInput where
  TopicArn : String
  PublishBatchRequestEntries : List PublishBatchRequestEntry
  deriving DecidableEq, Repr

/-- What `PublishBatch` answers when the call itself succeeds: the ids of the entries
the bus accepted and of those it rejected. -/
structure PublishBatchOutput where
  Successful : List String
  Failed : List String
  deriving DecidableEq, Repr

/-- The handler: its topic and its client, the latter as the `PublishBatch` operation
(`Except.error` is a transport error). -/
structure Handler where
  topic : String
  client : PublishBatchInput → Except String PublishBatchOutput

/-- The map `event` that `Handle` fills for one record (main.go:43-51), one field per
key it sets. `subject` holds the pointer `getSubject` returns and `data` the map
`getData` returns, `none` for nil. -/
structure EventMap where
  source : String
  id : String
  type : String
  time : Time
  subject : Option String
  user : String
  datacontenttype : String
  data : Option (List (String × String))
  deriving DecidableEq, Repr

/-- The function `isValid` (main.go:70-74). -/
def isValid (record : DynamoDBEventRecord) : Bool :=
  let typename := (index record.Change.NewImage "__typename").String
  let id := (index record.Change.NewImage "id").String
  typename != "" && id != ""

/-- The function `getSource` (main.go:76-81); the call is to `fmt.Sprint`. -/
def getSource (record : DynamoDBEventRecord) : String :=
  let typename := (index record.Change.NewImage "__typename").String
  let id := (index record.Change.NewImage "id").String
  Sprint ["/%s/%s", KebabCase typename, id]

/-- The function `getId` (main.go:83-85). -/
def getId (record : DynamoDBEventRecord) : String :=
  record.EventID

/-- The function `getType` (main.go:87-96); `fmt.Sprintf("%sCreated", typename)` writes
`typename` and then the rest of the format. -/
def getType (record : DynamoDBEventRecord) : String :=
  let typename := (index record.Change.NewImage "__typename").String
  if record.Change.OldImage = none ∧ record.Change.NewImage ≠ none then
    typename ++ "Created"
  else if record.Change.OldImage ≠ none ∧ record.Change.NewImage ≠ none then
    typename ++ "Updated"
  else
    typename ++ "Deleted"

/-- The function `getTime` (main.go:98-108). -/
def getTime (parse : TimeParser) (record : DynamoDBEventRecord) : Time :=
  let recordTime := (index record.Change.NewImage "__time").String
  if record.Change.NewImage ≠ none ∧ recordTime ≠ "" then
    match parse TimeFormat recordTime with
    | some eventTime => eventTime
    | none => record.Change.ApproximateCreationDateTime
  else
    record.Change.ApproximateCreationDateTime

/-- The function `getSubject` (main.go:110-116). -/
def getSubject (record : DynamoDBEventRecord) : Option String :=
  let subject := (index record.Change.NewImage "__user").String
  if subject = "" then none else some subject

/-- The function `getUser` (main.go:118-124). -/
def getUser (record : DynamoDBEventRecord) : String :=
  let user := (index record.Change.NewImage "__user").String
  if user = "" then "unknown" else user

/-- The function `getData` (main.go:126-128): always the nil map. -/
def getData (_record : DynamoDBEventRecord) : Option (List (String × String)) :=
  none

/-- The body of the loop of `Handle` past the validity test: the map for one record. -/
def newEvent (parse : TimeParser) (record : DynamoDBEventRecord) : EventMap :=
  { source := getSource record
    id := getId record
    type := getType record
    time := getTime parse record
    subject := getSubject record
    user := getUser record
    datacontenttype := "application/json"
    data := getData record }

/-- The loop of `Handle`: the slice `events` once every record has been visited. -/
def collect (parse : TimeParser) (records : List DynamoDBEventRecord) : List EventMap :=
  records.foldl
    (fun events record =>
      if !isValid record then events else events ++ [newEvent parse record])
    []

/-- What one run of `Handle` does: the slice `events` it collected, the `PublishBatch`
calls it issued, in order, and the error it returned (`none` is nil). -/
structure HandleResult where
  events : List EventMap
  calls : List PublishBatchInput
  err : Option String
  deriving DecidableEq, Repr

/-- The method `Handle` (main.go:36-68). -/
def Handler.Handle (parse : TimeParser) (h : Handler) (request : DynamoDBEvent) :
    HandleResult :=
  let events := collect parse request.Records
  if events.length > 0 then
    let entries : List PublishBatchRequestEntry := []
    let input : PublishBatchInput :=
      { TopicArn := h.topic, PublishBatchRequestEntries := entries }
    -- the outcome of the call is dropped
    let _ := h.client input
    { events := events, calls := [input], err := none }
  else
    { events := events, calls := [], err := none }

/-! ## Sample records (the end-to-end scenarios of the specification) -/

/-- The image `{__typename: "Order", id: "42", __time: "2024-01-01T10:00:00+0000"}`. -/
def orderImage : Image :=
  [("__typename", NewStringAttribute "Order"), ("id", NewStringAttribute "42"),
   ("__time", NewStringAttribute "2024-01-01T10:00:00+0000")]

/-- The instant 2024-01-01T10:00:00Z. -/
def orderTime : Time := { unix := 1704103200, nsec := 0, offset := 0 }

/-- The stream timestamp of the sample records, 2024-01-01T10:00:07Z. -/
def streamTime : Time := { unix := 1704103207, nsec := 0, offset := 0 }

/-- Scenario 1: the order image as after image, no before image. -/
def orderCreated : DynamoDBEventRecord :=
  { EventID := "c4ca4238a0b923820dcc509a6f75849b", EventName := "INSERT",
    Change := { ApproximateCreationDateTime := streamTime,
                NewImage := some orderImage, OldImage := none } }

/-- Scenario 2: the same record with a before image. -/
def orderUpdated : DynamoDBEventRecord :=
  { EventID := "c81e728d9d4c2f636f067f89cc14862c", EventName := "MODIFY",
    Change := { ApproximateCreationDateTime := streamTime,
                NewImage := some orderImage, OldImage := some orderImage } }

/-- Scenario 3: only the before image is present. -/
def orderDeleted : DynamoDBEventRecord :=
  { EventID := "eccbc87e4b5ce2fe28308fd9f2a7baf3", EventName := "REMOVE",
    Change := { ApproximateCreationDateTime := streamTime,
                NewImage := none, OldImage := some orderImage } }

/-- A deletion whose before image carries neither `__typename` nor `id`. -/
def shipmentDeleted : DynamoDBEventRecord :=
  { EventID := "a87ff679a2f3e71d9181a67b7542122c", EventName := "REMOVE",
    Change := { ApproximateCreationDateTime := streamTime,
                NewImage := none, OldImage := some [("status", NewStringAttribute "shipped")] } }

/-- A creation whose after image holds `id` = "42" and no `__typename`. -/
def untypedCreated : DynamoDBEventRecord :=
  { EventID := "e4da3b7fbbce2345d7772b0674a318d5", EventName := "INSERT",
    Change := { ApproximateCreationDateTime := streamTime,
                NewImage := some [("id", NewStringAttribute "42")], OldImage := none } }

/-- Scenario 1 with the user attribute set to the very string "unknown". -/
def unknownCreated : DynamoDBEventRecord :=
  { EventID := "1679091c5a880faf6fb5e6087eb1b2dc", EventName := "INSERT",
    Change := { ApproximateCreationDateTime := streamTime,
                NewImage := some (("__user", NewStringAttribute "unknown") :: orderImage),
                OldImage := none } }

/-- Scenario 1 as a record whose `EventID` is the empty string. -/
def unnumberedCreated : DynamoDBEventRecord :=
  { EventID := "", EventName := "INSERT",
    Change := { ApproximateCreationDateTime := streamTime,
                NewImage := some orderImage, OldImage := none } }

/-- A creation whose after image holds `__typename` as the empty string: `isValid`
rejects it. -/
def blankCreated : DynamoDBEventRecord :=
  { EventID := "8f14e45fceea167a5a36dedd4bea2543", EventName := "INSERT",
    Change := { ApproximateCreationDateTime := streamTime,
                NewImage := some [("__typename", NewStringAttribute ""),
                                  ("id", NewStringAttribute "42")],
                OldImage := none } }

/-- Scenario 5: three valid records and one invalid record. -/
def mixedBatch : DynamoDBEvent :=
  { Records := [orderCreated, blankCreated, orderUpdated, unknownCreated] }

/-- A creation of the order with `id` = "43". -/
def nextOrderCreated : DynamoDBEventRecord :=
  { EventID := "c9f0f895fb98ab9159f51fd0297e236d", EventName := "INSERT",
    Change := { ApproximateCreationDateTime := streamTime,
                NewImage := some [("__typename", NewStringAttribute "Order"),
                                  ("id", NewStringAttribute "43")],
                OldImage := none } }

/-- A creation with `__typename` = "Order" and `id` = "s1". -/
def orderS1 : DynamoDBEventRecord :=
  { EventID := "45c48cce2e2d7fbdea1afc51c7c6ad26", EventName := "INSERT",
    Change := { ApproximateCreationDateTime := streamTime,
                NewImage := some [("__typename", NewStringAttribute "Order"),
                                  ("id", NewStringAttribute "s1")],
                OldImage := none } }

/-- A creation with `__typename` = "Orders" and `id` = "1". -/
def orders1 : DynamoDBEventRecord :=
  { EventID := "d3d9446802a44259755d38e6d163e820", EventName := "INSERT",
    Change := { ApproximateCreationDateTime := streamTime,
                NewImage := some [("__typename", NewStringAttribute "Orders"),
                                  ("id", NewStringAttribute "1")],
                OldImage := none } }

/-- A handler whose bus call fails in transport. -/
def timeoutHandler : Handler :=
  { topic := "arn:aws:sns:eu-west-1:000000000000:events",
    client := fun _ => Except.error "RequestTimeout" }

/-- A handler whose bus reports an entry as failed. -/
def rejectingHandler : Handler :=
  { topic := "arn:aws:sns:eu-west-1:000000000000:events",
    client := fun _ => Except.ok { Successful := [], Failed := ["0"] } }

/-- A handler for the samples: its bus accepts every call. -/
def sampleHandler : Handler :=
  { topic := "arn:aws:sns:eu-west-1:000000000000:events",
    client := fun _ => Except.ok { Successful := [], Failed := [] } }

/-- A stand-in for `time.Parse` at which the statements below are instantiated: against
`TimeFormat` it parses the one value the scenarios carry, to the instant that value
denotes, and rejects every other value. -/
def scenarioParse : TimeParser := fun layout value =>
  if layout = TimeFormat ∧ value = "2024-01-01T10:00:00+0000" then some orderTime else none

/-- A fact about `time.Parse` and the layout `TimeFormat`: the layout opens with the
four-digit year, so a value that parses opens with a decimal digit. -/
def OpensWithDigit (parse : TimeParser) : Prop :=
  ∀ value t, parse TimeFormat value = some t →
    ∃ c rest, value.data = c :: rest ∧ c.isDigit = true

/-! ## Reading attributes -/

theorem String_NewStringAttribute (s : String) : (NewStringAttribute s).String = s := by
  simp [NewStringAttribute, DynamoDBAttributeValue.String]

theorem index_of_lookup {img : Image} {key : String} {av : DynamoDBAttributeValue}
    (h : img.lookup key = some av) : index (some img) key = av := by
  simp [index, h]

theorem index_string {img : Image} {key s : String}
    (h : img.lookup key = some (NewStringAttribute s)) :
    (index (some img) key).String = s := by
  rw [index_of_lookup h, String_NewStringAttribute]

theorem index_missing {img : Image} {key : String} (h : img.lookup key = none) :
    index (some img) key = DynamoDBAttributeValue.zero := by
  simp [index, h]

theorem zero_String : DynamoDBAttributeValue.zero.String = "\x7b<nil> 0\x7d" := by
  decide

theorem Sprint_three (a b c : String) : Sprint [a, b, c] = a ++ b ++ c := by
  simp [Sprint]

/-! ## `getSource` -/

/-- What `getSource` computes when the after image holds both strings: the operands of
`fmt.Sprint` one after the other, the would-be format string first. -/
theorem getSource_eq (record : DynamoDBEventRecord) (img : Image) (T I : String)
    (hnew : record.Change.NewImage = some img)
    (hT : img.lookup "__typename" = some (NewStringAttribute T))
    (hI : img.lookup "id" = some (NewStringAttribute I)) :
    getSource record = "/%s/%s" ++ KebabCase T ++ I := by
  simp only [getSource, hnew, index_string hT, index_string hI, Sprint_three]

/-- C1, evaluated on scenario 1: for the after image with `__typename` = "Order" and
`id` = "42", `getSource` returns "/%s/%sorder42", which is not the path "/order/42"
that "/" ++ kebabCase(T) ++ "/" ++ I denotes (`KebabCase "Order"` is "order"). -/
theorem getSource_orderCreated :
    getSource orderCreated = "/%s/%sorder42" ∧ KebabCase "Order" = "order" ∧
      getSource orderCreated ≠ "/" ++ KebabCase "Order" ++ "/" ++ "42" := by
  decide

/-! ## `getType` -/

/-- C2: when the after image is present and holds `__typename` = T, `getType` returns
T ++ "Created" if the before image is absent and T ++ "Updated" if it is present; T
enters the result unchanged. -/
theorem getType_created_updated (record : DynamoDBEventRecord) (img : Image) (T : String)
    (hnew : record.Change.NewImage = some img)
    (hT : img.lookup "__typename" = some (NewStringAttribute T)) :
    (record.Change.OldImage = none → getType record = T ++ "Created") ∧
      (record.Change.OldImage ≠ none → getType record = T ++ "Updated") := by
  constructor
  · intro hold
    simp [getType, hnew, hold, index_string hT]
  · intro hold
    simp [getType, hnew, hold, index_string hT]

/-- C2 on scenarios 1 and 2: "Order" gives "OrderCreated" and "OrderUpdated". -/
theorem getType_created_updated_witness :
    getType orderCreated = "OrderCreated" ∧ getType orderUpdated = "OrderUpdated" :=
  ⟨(getType_created_updated orderCreated orderImage "Order" rfl rfl).1 rfl,
   (getType_created_updated orderUpdated orderImage "Order" rfl rfl).2 (by decide)⟩

/-- What `getType` computes for a record without after image: the type name is read
from the absent after image, never from the before image. -/
theorem getType_deletion (record : DynamoDBEventRecord)
    (hnew : record.Change.NewImage = none) :
    getType record = "\x7b<nil> 0\x7dDeleted" := by
  simp only [getType, hnew, index, zero_String]
  simp

/-- C3, evaluated on scenario 3: with only the before image present, holding
`__typename` = "Order", `getType` returns "{<nil> 0}Deleted", not "OrderDeleted"; it
returns the same for `shipmentDeleted`, whose before image has no `__typename`. -/
theorem getType_orderDeleted :
    orderDeleted.Change.NewImage = none ∧
      orderDeleted.Change.OldImage = some orderImage ∧
      orderImage.lookup "__typename" = some (NewStringAttribute "Order") ∧
      getType orderDeleted = "\x7b<nil> 0\x7dDeleted" ∧
      getType orderDeleted ≠ "Order" ++ "Deleted" ∧
      getType shipmentDeleted = getType orderDeleted := by
  decide

/-! ## The loop of `Handle` -/

theorem foldl_collect (parse : TimeParser) (records : List DynamoDBEventRecord)
    (acc : List EventMap) :
    records.foldl
        (fun events record =>
          if !isValid record then events else events ++ [newEvent parse record])
        acc
      = acc ++ (records.filter isValid).map (newEvent parse) := by
  induction records generalizing acc with
  | nil => simp
  | cons r rs ih =>
    rw [List.foldl_cons, ih]
    cases hr : isValid r <;> simp [hr]

/-- The loop keeps one event per valid record, in the order of the records. -/
theorem collect_eq (parse : TimeParser) (records : List DynamoDBEventRecord) :
    collect parse records = (records.filter isValid).map (newEvent parse) := by
  unfold collect
  rw [foldl_collect, List.nil_append]

theorem Handle_events (parse : TimeParser) (h : Handler) (request : DynamoDBEvent) :
    (h.Handle parse request).events = collect parse request.Records := by
  unfold Handler.Handle
  dsimp only
  split <;> rfl

theorem mem_Handle_events (parse : TimeParser) (h : Handler) (request : DynamoDBEvent)
    (e : EventMap) :
    e ∈ (h.Handle parse request).events ↔
      ∃ record ∈ request.Records, isValid record = true ∧ e = newEvent parse record := by
  rw [Handle_events, collect_eq]
  simp only [List.mem_map, List.mem_filter]
  constructor
  · rintro ⟨r, ⟨hr, hv⟩, rfl⟩
    exact ⟨r, hr, hv, rfl⟩
  · rintro ⟨r, hr, hv, rfl⟩
    exact ⟨r, ⟨hr, hv⟩, rfl⟩

/-! ## `isValid` -/

/-- The string `String()` gives for an attribute that is not a string attribute is
never empty: it opens with a brace. -/
theorem String_data_of_not_string (av : DynamoDBAttributeValue)
    (h : av.dataType ≠ .DataTypeString) :
    ∃ rest, av.String.data = '{' :: rest := by
  refine ⟨av.value.data ++ (" " ++ toString av.dataType.code ++ "\x7d").data, ?_⟩
  simp [DynamoDBAttributeValue.String, h, String.data_append]

theorem isValid_iff_strings (record : DynamoDBEventRecord) :
    isValid record = true ↔
      (index record.Change.NewImage "__typename").String ≠ "" ∧
        (index record.Change.NewImage "id").String ≠ "" := by
  simp [isValid]

/-- Without after image both strings `isValid` tests are the rendering of the zero
attribute value, so the test succeeds. -/
theorem isValid_of_no_after (record : DynamoDBEventRecord)
    (hnew : record.Change.NewImage = none) : isValid record = true := by
  rw [isValid_iff_strings, hnew]
  simp only [index, zero_String]
  decide

/-- C4: a deletion record (after image absent, before image present) whose before image
carries a non-empty `__typename` and a non-empty `id` passes `isValid`, and `Handle`
collects the event of that record in every batch that holds it. -/
theorem isValid_deletion (parse : TimeParser) (h : Handler) (record : DynamoDBEventRecord)
    (before : Image) (T I : String)
    (hnew : record.Change.NewImage = none)
    (_hold : record.Change.OldImage = some before)
    (_hT : before.lookup "__typename" = some (NewStringAttribute T))
    (_hI : before.lookup "id" = some (NewStringAttribute I))
    (_hTne : T ≠ "") (_hIne : I ≠ "") :
    isValid record = true ∧
      ∀ request : DynamoDBEvent, record ∈ request.Records →
        newEvent parse record ∈ (h.Handle parse request).events := by
  have hv := isValid_of_no_after record hnew
  refine ⟨hv, ?_⟩
  intro request hmem
  exact (mem_Handle_events parse h request _).2 ⟨record, hmem, hv, rfl⟩

/-- C4 on scenario 3, in a batch with scenario 1. -/
theorem isValid_deletion_witness :
    isValid orderDeleted = true ∧
      newEvent scenarioParse orderDeleted ∈
        (sampleHandler.Handle scenarioParse
          { Records := [orderCreated, orderDeleted] }).events :=
  have h := isValid_deletion scenarioParse sampleHandler orderDeleted orderImage "Order" "42"
    rfl rfl rfl rfl (by decide) (by decide)
  ⟨h.1, h.2 { Records := [orderCreated, orderDeleted] } (by simp)⟩

/-- C5: when the after image holds `__typename` = T and `id` = I as string attributes,
`isValid` returns true exactly when both T and I are non-empty. -/
theorem isValid_iff (record : DynamoDBEventRecord) (img : Image) (T I : String)
    (hnew : record.Change.NewImage = some img)
    (hT : img.lookup "__typename" = some (NewStringAttribute T))
    (hI : img.lookup "id" = some (NewStringAttribute I)) :
    isValid record = true ↔ T ≠ "" ∧ I ≠ "" := by
  rw [isValid_iff_strings, hnew, index_string hT, index_string hI]

/-- C5 on scenario 1. -/
theorem isValid_iff_witness :
    (isValid orderCreated = true ↔ "Order" ≠ "" ∧ "42" ≠ "") ∧ isValid orderCreated = true :=
  ⟨isValid_iff orderCreated orderImage "Order" "42" rfl rfl rfl, by decide⟩

/-- C6, evaluated on `untypedCreated`: its after image has no `__typename`, `isValid`
returns true, and `Handle` collects one event for it, of type "{<nil> 0}Created". -/
theorem isValid_untypedCreated (parse : TimeParser) (h : Handler) :
    (∃ img, untypedCreated.Change.NewImage = some img ∧ img.lookup "__typename" = none) ∧
      isValid untypedCreated = true ∧
      ((h.Handle parse { Records := [untypedCreated] }).events.map fun e => e.type)
        = ["\x7b<nil> 0\x7dCreated"] := by
  refine ⟨⟨_, rfl, by decide⟩, by decide, ?_⟩
  have hv : isValid untypedCreated = true := by decide
  rw [Handle_events, collect_eq]
  simp only [List.filter, hv, List.map, newEvent]
  decide

/-! ## `getTime` -/

theorem scenarioParse_opens_with_digit : OpensWithDigit scenarioParse := by
  intro value t h
  unfold scenarioParse at h
  split at h
  · rename_i hv
    refine ⟨'2', "024-01-01T10:00:00+0000".data, ?_, by decide⟩
    rw [hv.2]
  · exact absurd h (by simp)

theorem parse_of_not_string (parse : TimeParser) (hparse : OpensWithDigit parse)
    (av : DynamoDBAttributeValue) (h : av.dataType ≠ .DataTypeString) :
    parse TimeFormat av.String = none := by
  cases hp : parse TimeFormat av.String with
  | none => rfl
  | some t =>
    obtain ⟨c, rest, hc, hdigit⟩ := hparse _ _ hp
    obtain ⟨rest', hbrace⟩ := String_data_of_not_string av h
    rw [hbrace] at hc
    injection hc with hhead _
    subst hhead
    exact absurd hdigit (by decide)

/-- C7: `getTime` is a total function.  When the after image is present and its `__time`
attribute is a non-empty string u that `time.Parse` accepts against `TimeFormat`,
`getTime` returns the parsed time; in every other case (after image absent, `__time`
absent, empty or rejected by the parser) it returns the record's
`ApproximateCreationDateTime`. -/
theorem getTime_total (parse : TimeParser) (hparse : OpensWithDigit parse)
    (record : DynamoDBEventRecord) :
    (∀ (img : Image) (u : String) (t : Time), record.Change.NewImage = some img →
        img.lookup "__time" = some (NewStringAttribute u) → u ≠ "" →
        parse TimeFormat u = some t → getTime parse record = t) ∧
      ((¬ ∃ (img : Image) (u : String) (t : Time), record.Change.NewImage = some img ∧
          img.lookup "__time" = some (NewStringAttribute u) ∧ u ≠ "" ∧
          parse TimeFormat u = some t) →
        getTime parse record = record.Change.ApproximateCreationDateTime) := by
  constructor
  · intro img u t hnew hu hne ht
    simp [getTime, hnew, index_string hu, hne, ht]
  · intro hno
    cases hnew : record.Change.NewImage with
    | none => simp [getTime, hnew]
    | some img =>
      cases hl : img.lookup "__time" with
      | none =>
        have hz := parse_of_not_string parse hparse DynamoDBAttributeValue.zero (by decide)
        simp only [getTime, hnew, index_missing hl, hz]
        split <;> rfl
      | some av =>
        by_cases hs : av.dataType = .DataTypeString
        · have hav : av = NewStringAttribute av.value := by
            cases av
            simp_all [NewStringAttribute]
          rw [hav] at hl
          cases hp : parse TimeFormat av.value with
          | none =>
            simp only [getTime, hnew, index_string hl, hp]
            split <;> rfl
          | some t =>
            by_cases hne : av.value = ""
            · simp [getTime, hnew, index_string hl, hne]
            · exact absurd ⟨img, av.value, t, hnew, hl, hne, hp⟩ hno
        · have hz := parse_of_not_string parse hparse av hs
          simp only [getTime, hnew, index_of_lookup hl, hz]
          split <;> rfl

/-- C7 on the scenarios: "2024-01-01T10:00:00+0000" gives 2024-01-01T10:00:00Z, and a
record without after image gets the stream timestamp. -/
theorem getTime_total_witness :
    OpensWithDigit scenarioParse ∧
      scenarioParse TimeFormat "2024-01-01T10:00:00+0000" = some orderTime ∧
      getTime scenarioParse orderCreated = orderTime ∧
      getTime scenarioParse orderDeleted = streamTime :=
  ⟨scenarioParse_opens_with_digit, rfl,
   (getTime_total scenarioParse scenarioParse_opens_with_digit orderCreated).1
      orderImage "2024-01-01T10:00:00+0000" orderTime rfl rfl (by decide) rfl,
   (getTime_total scenarioParse scenarioParse_opens_with_digit orderDeleted).2
      (by rintro ⟨img, u, t, hnew, _⟩; exact Option.noConfusion hnew)⟩

/-! ## `getSubject` and `getUser` -/

/-- On a `__user` attribute that is a string u, the two functions split on u being
empty: no subject and the user "unknown", or u for both. -/
theorem subject_user_of_string (record : DynamoDBEventRecord) (img : Image) (u : String)
    (hnew : record.Change.NewImage = some img)
    (hu : img.lookup "__user" = some (NewStringAttribute u)) :
    (u = "" → getSubject record = none ∧ getUser record = "unknown") ∧
      (u ≠ "" → getSubject record = some u ∧ getUser record = u) := by
  constructor
  · intro h
    simp [getSubject, getUser, hnew, index_string hu, h]
  · intro h
    simp [getSubject, getUser, hnew, index_string hu, h]

/-- C8, evaluated on scenario 1: the after image has no `__user` attribute, and
`getSubject` returns a value and `getUser` returns it too, the string "{<nil> 0}";
neither returns what the claim gives for an empty field (no value, "unknown"). -/
theorem subject_user_orderCreated :
    orderImage.lookup "__user" = none ∧
      getSubject orderCreated = some "\x7b<nil> 0\x7d" ∧ getUser orderCreated = "\x7b<nil> 0\x7d" ∧
      getSubject orderCreated ≠ none ∧ getUser orderCreated ≠ "unknown" := by
  decide

/-- C9, refuted on `unknownCreated`: its `__user` attribute is the string "unknown", so
`getUser` returns "unknown" although `getSubject` returns a value. -/
theorem getUser_unknownCreated :
    getUser unknownCreated = "unknown" ∧ getSubject unknownCreated = some "unknown" ∧
      ¬ (getUser unknownCreated = "unknown" ↔ getSubject unknownCreated = none) := by
  decide

/-- C9 as amended: `getSubject` returns no value exactly when the `__user` string the
handler reads is empty, and then `getUser` returns "unknown"; `getUser` returns
"unknown" exactly when `getSubject` returns no value or returns the string "unknown"
itself; and when `getSubject` returns a value, `getUser` returns that value. -/
theorem getUser_unknown_iff (record : DynamoDBEventRecord) :
    (getSubject record = none ↔ (index record.Change.NewImage "__user").String = "") ∧
      (getSubject record = none → getUser record = "unknown") ∧
      (getUser record = "unknown" ↔
        getSubject record = none ∨ getSubject record = some "unknown") ∧
      (∀ u, getSubject record = some u → getUser record = u) := by
  unfold getSubject getUser
  by_cases h : (index record.Change.NewImage "__user").String = ""
  · simp [h]
  · simp [h]

/-! ## The events `Handle` collects -/

theorem append_ne_empty_left (a b : String) (h : a ≠ "") : a ++ b ≠ "" := by
  intro hab
  apply h
  have hlen := congrArg String.length hab
  rw [String.length_append] at hlen
  apply String.ext
  have h0 : a.length = 0 := by
    have : ("" : String).length = 0 := rfl
    omega
  exact List.length_eq_zero.mp h0

theorem append_ne_empty_right (a b : String) (h : b ≠ "") : a ++ b ≠ "" := by
  intro hab
  apply h
  have hlen := congrArg String.length hab
  rw [String.length_append] at hlen
  apply String.ext
  have h0 : b.length = 0 := by
    have : ("" : String).length = 0 := rfl
    omega
  exact List.length_eq_zero.mp h0

theorem getType_ne_empty (record : DynamoDBEventRecord) : getType record ≠ "" := by
  unfold getType
  dsimp only
  split
  · exact append_ne_empty_right _ _ (by decide)
  · split
    · exact append_ne_empty_right _ _ (by decide)
    · exact append_ne_empty_right _ _ (by decide)

theorem getSource_ne_empty (record : DynamoDBEventRecord) : getSource record ≠ "" := by
  unfold getSource
  dsimp only
  rw [Sprint_three]
  exact append_ne_empty_left _ _ (append_ne_empty_left _ _ (by decide))

/-- C10, refuted on `unnumberedCreated`: the record is valid and its `EventID` is the
empty string, so the one event `Handle` collects for it has an empty `id`. -/
theorem Handle_unnumberedCreated :
    isValid unnumberedCreated = true ∧
      ((sampleHandler.Handle scenarioParse { Records := [unnumberedCreated] }).events.map
        fun e => e.id) = [""] := by
  refine ⟨by decide, ?_⟩
  have hv : isValid unnumberedCreated = true := by decide
  rw [Handle_events, collect_eq]
  simp only [List.filter, hv, List.map, newEvent]
  rfl

/-- C10 as amended: every event `Handle` collects has a non-empty `type` and a non-empty
`source`, and its `id` is the `EventID` of a valid record of the batch, the one it was
built from, taken verbatim; the `id` is non-empty when that `EventID` is. -/
theorem Handle_events_fields (parse : TimeParser) (h : Handler) (request : DynamoDBEvent)
    (e : EventMap) (he : e ∈ (h.Handle parse request).events) :
    e.type ≠ "" ∧ e.source ≠ "" ∧
      ∃ record ∈ request.Records, isValid record = true ∧ e = newEvent parse record ∧
        e.id = record.EventID ∧ (record.EventID ≠ "" → e.id ≠ "") := by
  obtain ⟨record, hmem, hv, rfl⟩ := (mem_Handle_events parse h request e).1 he
  exact ⟨getType_ne_empty record, getSource_ne_empty record, record, hmem, hv, rfl, rfl,
    fun hne => hne⟩

/-- C10 as amended, on the batch that holds scenario 1 alone: its event is collected,
with its three fields. -/
theorem Handle_events_fields_witness :
    (newEvent scenarioParse orderCreated).type = "OrderCreated" ∧
      (newEvent scenarioParse orderCreated).type ≠ "" ∧
      (newEvent scenarioParse orderCreated).source ≠ "" ∧
      (newEvent scenarioParse orderCreated).id = "c4ca4238a0b923820dcc509a6f75849b" :=
  have hmem : newEvent scenarioParse orderCreated ∈
      (sampleHandler.Handle scenarioParse { Records := [orderCreated] }).events :=
    (mem_Handle_events _ _ _ _).2 ⟨orderCreated, by simp, by decide, rfl⟩
  have h := Handle_events_fields scenarioParse sampleHandler { Records := [orderCreated] }
    (newEvent scenarioParse orderCreated) hmem
  ⟨rfl, h.1, h.2.1, rfl⟩

/-! ## The publish step of `Handle` -/

theorem Handle_err (parse : TimeParser) (h : Handler) (request : DynamoDBEvent) :
    (h.Handle parse request).err = none := by
  unfold Handler.Handle
  dsimp only
  split <;> rfl

theorem Handle_calls (parse : TimeParser) (h : Handler) (request : DynamoDBEvent) :
    (h.Handle parse request).calls =
      if (collect parse request.Records).length > 0 then
        [{ TopicArn := h.topic, PublishBatchRequestEntries := [] }]
      else [] := by
  unfold Handler.Handle
  dsimp only
  split <;> rfl

theorem collect_length_pos_iff (parse : TimeParser) (records : List DynamoDBEventRecord) :
    (collect parse records).length > 0 ↔ ∃ record ∈ records, isValid record = true := by
  rw [collect_eq, List.length_map, gt_iff_lt, List.length_pos]
  constructor
  · intro hne
    by_contra hno
    apply hne
    rw [List.filter_eq_nil_iff]
    intro a ha hv
    exact hno ⟨a, ha, hv⟩
  · rintro ⟨r, hr, hv⟩ hnil
    rw [List.filter_eq_nil_iff] at hnil
    exact hnil r hr hv

/-- C11, evaluated on scenario 5: of the four records of `mixedBatch` three are valid,
`Handle` collects three events and issues one call, and that call carries no entry. -/
theorem Handle_mixedBatch :
    mixedBatch.Records.map isValid = [true, false, true, true] ∧
      (sampleHandler.Handle scenarioParse mixedBatch).events.length = 3 ∧
      (sampleHandler.Handle scenarioParse mixedBatch).calls =
        [{ TopicArn := sampleHandler.topic, PublishBatchRequestEntries := [] }] ∧
      ((sampleHandler.Handle scenarioParse mixedBatch).calls.map fun c =>
        c.PublishBatchRequestEntries.length) = [0] := by
  have hv : mixedBatch.Records.map isValid = [true, false, true, true] := by decide
  have hlen : (collect scenarioParse mixedBatch.Records).length = 3 := by
    rw [collect_eq, List.length_map]
    decide
  refine ⟨hv, ?_, ?_, ?_⟩
  · rw [Handle_events, hlen]
  · rw [Handle_calls, hlen]
    rfl
  · rw [Handle_calls, hlen]
    rfl

/-- C12, refuted on the batch of scenario 1: the record is valid, the bus call of
`timeoutHandler` returns a transport error and that of `rejectingHandler` reports a
failed entry, and `Handle` returns nil with both. -/
theorem Handle_timeout :
    isValid orderCreated = true ∧
      (∀ input, timeoutHandler.client input = Except.error "RequestTimeout") ∧
      (timeoutHandler.Handle scenarioParse { Records := [orderCreated] }).err = none ∧
      (∀ input, rejectingHandler.client input
        = Except.ok { Successful := [], Failed := ["0"] }) ∧
      (rejectingHandler.Handle scenarioParse { Records := [orderCreated] }).err = none :=
  ⟨by decide, fun _ => rfl, Handle_err _ _ _, fun _ => rfl, Handle_err _ _ _⟩

/-- C12 as amended: `Handle` returns nil for every batch and every outcome of the
batch-publish call; the outcome is not inspected, so two handlers with the same topic do
the same whatever their buses answer. -/
theorem Handle_returns_nil (parse : TimeParser) (h : Handler) (request : DynamoDBEvent) :
    (h.Handle parse request).err = none ∧
      ∀ other : Handler, other.topic = h.topic →
        other.Handle parse request = h.Handle parse request := by
  refine ⟨Handle_err parse h request, ?_⟩
  intro other htopic
  unfold Handler.Handle
  dsimp only
  rw [htopic]

/-- A batch none of whose records `isValid` accepts: no event, no call, nil. -/
theorem Handle_of_no_valid (parse : TimeParser) (h : Handler) (request : DynamoDBEvent)
    (hno : ∀ record ∈ request.Records, isValid record = false) :
    (h.Handle parse request).events = [] ∧ (h.Handle parse request).calls = [] ∧
      (h.Handle parse request).err = none := by
  have hnil : collect parse request.Records = [] := by
    rw [collect_eq, List.map_eq_nil_iff, List.filter_eq_nil_iff]
    intro a ha hv
    rw [hno a ha] at hv
    exact Bool.noConfusion hv
  refine ⟨?_, ?_, Handle_err parse h request⟩
  · rw [Handle_events, hnil]
  · rw [Handle_calls, hnil]
    rfl

/-- C13, evaluated on the batch whose only record is `untypedCreated`: its after image
lacks `__typename`, and `Handle` collects one event and issues one call; on the empty
batch it collects none and issues none. -/
theorem Handle_untypedBatch (parse : TimeParser) (h : Handler) :
    (∃ img, untypedCreated.Change.NewImage = some img ∧ img.lookup "__typename" = none) ∧
      (h.Handle parse { Records := [untypedCreated] }).events.length = 1 ∧
      (h.Handle parse { Records := [untypedCreated] }).calls.length = 1 ∧
      (h.Handle parse { Records := [untypedCreated] }).err = none ∧
      (h.Handle parse { Records := [] }).events = [] ∧
      (h.Handle parse { Records := [] }).calls = [] := by
  have hlen : (collect parse [untypedCreated]).length = 1 := by
    rw [collect_eq, List.length_map]
    decide
  have hempty := Handle_of_no_valid parse h { Records := [] } (by simp)
  refine ⟨⟨_, rfl, by decide⟩, ?_, ?_, Handle_err _ _ _, hempty.1, hempty.2.1⟩
  · rw [Handle_events, hlen]
  · rw [Handle_calls, hlen]
    rfl

/-! ## Source paths of different records -/

theorem String_append_cancel_left (a b c : String) (h : a ++ b = a ++ c) : b = c := by
  have hdata := congrArg String.data h
  rw [String.data_append, String.data_append] at hdata
  exact String.ext (List.append_cancel_left hdata)

/-- C14: two records whose after images hold the same `__typename` and different `id`
strings get different source paths. -/
theorem getSource_distinct_ids (r₁ r₂ : DynamoDBEventRecord) (img₁ img₂ : Image)
    (T I₁ I₂ : String)
    (hnew₁ : r₁.Change.NewImage = some img₁) (hnew₂ : r₂.Change.NewImage = some img₂)
    (hT₁ : img₁.lookup "__typename" = some (NewStringAttribute T))
    (hT₂ : img₂.lookup "__typename" = some (NewStringAttribute T))
    (hI₁ : img₁.lookup "id" = some (NewStringAttribute I₁))
    (hI₂ : img₂.lookup "id" = some (NewStringAttribute I₂))
    (hne : I₁ ≠ I₂) :
    getSource r₁ ≠ getSource r₂ := by
  rw [getSource_eq r₁ img₁ T I₁ hnew₁ hT₁ hI₁, getSource_eq r₂ img₂ T I₂ hnew₂ hT₂ hI₂]
  intro h
  exact hne (String_append_cancel_left _ _ _ h)

/-- C14 on the orders "42" and "43". -/
theorem getSource_distinct_ids_witness :
    getSource orderCreated ≠ getSource nextOrderCreated :=
  getSource_distinct_ids orderCreated nextOrderCreated _ _ "Order" "42" "43"
    rfl rfl rfl rfl rfl rfl (by decide)

/-- C15, evaluated on `orderS1` and `orders1`: the type names "Order" and "Orders" are
alphanumeric words in Pascal case, the ids "s1" and "1" hold no "/", the pairs
("order", "s1") and ("orders", "1") differ, and both records get the source path
"/%s/%sorders1". -/
theorem getSource_orders1 :
    KebabCase "Order" = "order" ∧ KebabCase "Orders" = "orders" ∧
      (KebabCase "Order", "s1") ≠ (KebabCase "Orders", "1") ∧
      getSource orderS1 = "/%s/%sorders1" ∧ getSource orders1 = "/%s/%sorders1" ∧
      getSource orderS1 = getSource orders1 := by
  decide

/-! ## The sequence of events -/

/-- C16: the events `Handle` collects are the valid records of the batch, in input order,
each mapped to the envelope built from `getSource`, `getId`, `getType`, `getTime`,
`getSubject`, `getUser` and `getData`; there are as many events as valid records and
the i-th event is built from the i-th valid record. -/
theorem Handle_events_eq (parse : TimeParser) (h : Handler) (request : DynamoDBEvent) :
    (h.Handle parse request).events =
        (request.Records.filter isValid).map (fun record =>
          { source := getSource record, id := getId record, type := getType record,
            time := getTime parse record, subject := getSubject record,
            user := getUser record, datacontenttype := "application/json",
            data := getData record }) ∧
      (h.Handle parse request).events.length = (request.Records.filter isValid).length ∧
      ∀ i : Nat, (h.Handle parse request).events[i]? =
        ((request.Records.filter isValid)[i]?).map (newEvent parse) := by
  have heq : (h.Handle parse request).events
      = (request.Records.filter isValid).map (newEvent parse) := by
    rw [Handle_events, collect_eq]
  refine ⟨heq, ?_, ?_⟩
  · rw [heq, List.length_map]
  · intro i
    rw [heq, List.getElem?_map]

/-- C17: `getData` returns nil for every record, and every event `Handle` collects has
`datacontenttype` "application/json" and no `data`, whatever the records hold. -/
theorem Handle_events_data (parse : TimeParser) (h : Handler) (request : DynamoDBEvent)
    (record : DynamoDBEventRecord) (e : EventMap)
    (he : e ∈ (h.Handle parse request).events) :
    getData record = none ∧ e.datacontenttype = "application/json" ∧ e.data = none := by
  obtain ⟨r, _, _, rfl⟩ := (mem_Handle_events parse h request e).1 he
  exact ⟨rfl, rfl, rfl⟩

/-- C17 on scenario 5: the event of scenario 1 is among those collected. -/
theorem Handle_events_data_witness :
    newEvent scenarioParse orderCreated ∈
        (sampleHandler.Handle scenarioParse mixedBatch).events ∧
      getData orderCreated = none ∧
      (newEvent scenarioParse orderCreated).datacontenttype = "application/json" ∧
      (newEvent scenarioParse orderCreated).data = none :=
  have hmem : newEvent scenarioParse orderCreated ∈
      (sampleHandler.Handle scenarioParse mixedBatch).events :=
    (mem_Handle_events _ _ _ _).2 ⟨orderCreated, by simp [mixedBatch], by decide, rfl⟩
  ⟨hmem, Handle_events_data scenarioParse sampleHandler mixedBatch orderCreated _ hmem⟩

/-- C18: the events collected for the batch A ++ B are those collected for A followed by
those collected for B; the events of a batch are, record by record, the events of the
one-record batches, and a one-record batch yields the event of its record when the
record is valid and nothing otherwise. -/
theorem Handle_events_append (parse : TimeParser) (h : Handler)
    (A B : List DynamoDBEventRecord) :
    (h.Handle parse { Records := A ++ B }).events =
        (h.Handle parse { Records := A }).events ++ (h.Handle parse { Records := B }).events ∧
      (h.Handle parse { Records := A }).events =
        A.flatMap (fun record => (h.Handle parse { Records := [record] }).events) ∧
      ∀ record : DynamoDBEventRecord,
        (h.Handle parse { Records := [record] }).events =
          if isValid record then [newEvent parse record] else [] := by
  have hone : ∀ record : DynamoDBEventRecord,
      (h.Handle parse { Records := [record] }).events =
        if isValid record then [newEvent parse record] else [] := by
    intro record
    rw [Handle_events, collect_eq]
    cases hv : isValid record <;> simp [List.filter, hv]
  refine ⟨?_, ?_, hone⟩
  · simp only [Handle_events, collect_eq, List.filter_append, List.map_append]
  · rw [Handle_events, collect_eq]
    induction A with
    | nil => rfl
    | cons a as ih =>
      rw [List.flatMap_cons, ← ih, hone a]
      cases hv : isValid a <;> simp [List.filter, hv]

/-- C19, refuted on scenario 3: `orderDeleted` has no after image and passes `isValid`;
`Handle` collects its event, and the type of that event comes from the "Deleted" branch
of `getType`. -/
theorem Handle_orderDeleted :
    isValid orderDeleted = true ∧ orderDeleted.Change.NewImage = none ∧
      getType orderDeleted =
        (index orderDeleted.Change.NewImage "__typename").String ++ "Deleted" ∧
      ((sampleHandler.Handle scenarioParse { Records := [orderDeleted] }).events.map
        fun e => e.type) = [getType orderDeleted] := by
  have hv : isValid orderDeleted = true := by decide
  refine ⟨hv, rfl, by decide, ?_⟩
  rw [Handle_events, collect_eq]
  simp only [List.filter, hv, List.map, newEvent]

/-- C19 as amended: for a record that passes `isValid`, with T the `__typename` string
the handler reads from the after image: when the after image is present T is non-empty
and `getType` returns T ++ "Created" (no before image) or T ++ "Updated" (before image
present); when the after image is absent `getType` takes the "Deleted" branch.  So the
"Deleted" branch is taken for exactly those records with an event that have no after
image. -/
theorem getType_of_valid (record : DynamoDBEventRecord) (hv : isValid record = true) :
    (record.Change.NewImage ≠ none →
        (index record.Change.NewImage "__typename").String ≠ "" ∧
        (record.Change.OldImage = none → getType record =
          (index record.Change.NewImage "__typename").String ++ "Created") ∧
        (record.Change.OldImage ≠ none → getType record =
          (index record.Change.NewImage "__typename").String ++ "Updated")) ∧
      (record.Change.NewImage = none → getType record =
        (index record.Change.NewImage "__typename").String ++ "Deleted") := by
  have hT := ((isValid_iff_strings record).1 hv).1
  refine ⟨fun hnew => ⟨hT, ?_, ?_⟩, ?_⟩
  · intro hold
    simp [getType, hnew, hold]
  · intro hold
    simp [getType, hnew, hold]
  · intro hnew
    simp [getType, hnew]

/-- C19 as amended, on scenarios 1, 2 and 3. -/
theorem getType_of_valid_witness :
    getType orderCreated = "Order" ++ "Created" ∧
      getType orderUpdated = "Order" ++ "Updated" ∧
      getType orderDeleted =
        (index orderDeleted.Change.NewImage "__typename").String ++ "Deleted" :=
  ⟨((getType_of_valid orderCreated (by decide)).1 (by decide)).2.1 rfl,
   ((getType_of_valid orderUpdated (by decide)).1 (by decide)).2.2 (by decide),
   (getType_of_valid orderDeleted (by decide)).2 rfl⟩

/-- C20: `Handle` issues one batch-publish call when at least one record of the batch is
valid and none otherwise; it never issues more than one, however many events it
collected, and every call it issues names the topic of the handler. -/
theorem Handle_calls_count (parse : TimeParser) (h : Handler) (request : DynamoDBEvent) :
    ((∃ record ∈ request.Records, isValid record = true) →
        (h.Handle parse request).calls.length = 1) ∧
      ((¬ ∃ record ∈ request.Records, isValid record = true) →
        (h.Handle parse request).calls = []) ∧
      (h.Handle parse request).calls.length ≤ 1 ∧
      ∀ call ∈ (h.Handle parse request).calls, call.TopicArn = h.topic := by
  rw [Handle_calls]
  by_cases hpos : (collect parse request.Records).length > 0
  · have hex := (collect_length_pos_iff parse request.Records).1 hpos
    rw [if_pos hpos]
    refine ⟨fun _ => rfl, fun hno => absurd hex hno, Nat.le_refl 1, ?_⟩
    intro call hcall
    rw [List.mem_singleton] at hcall
    rw [hcall]
  · have hex : ¬ ∃ record ∈ request.Records, isValid record = true :=
      fun hx => hpos ((collect_length_pos_iff parse request.Records).2 hx)
    rw [if_neg hpos]
    refine ⟨fun hx => absurd hx hex, fun _ => rfl, Nat.zero_le 1, ?_⟩
    intro call hcall
    cases hcall

/-- C20 on scenario 5 and on the batch that holds one invalid record: one call, to the
topic of the handler, and no call. -/
theorem Handle_calls_count_witness :
    (sampleHandler.Handle scenarioParse mixedBatch).calls.length = 1 ∧
      (∀ call ∈ (sampleHandler.Handle scenarioParse mixedBatch).calls,
        call.TopicArn = "arn:aws:sns:eu-west-1:000000000000:events") ∧
      (sampleHandler.Handle scenarioParse { Records := [blankCreated] }).calls = [] :=
  ⟨(Handle_calls_count scenarioParse sampleHandler mixedBatch).1
      ⟨orderCreated, by simp [mixedBatch], by decide⟩,
   (Handle_calls_count scenarioParse sampleHandler mixedBatch).2.2.2,
   (Handle_calls_count scenarioParse sampleHandler { Records := [blankCreated] }).2.1
      (by
        rintro ⟨record, hmem, hv⟩
        rw [List.mem_singleton] at hmem
        rw [hmem] at hv
        exact absurd hv (by decide))⟩

end Cdc
